import Mathlib

/-!
Verification of the GStreamer video codec controller
(`xbmc/cores/VideoPlayer/DVDCodecs/Video/DVDVideoCodecGStreamer.cpp`,
non-webOS... first platform variant, together with its header).

The development shallowly embeds:

* the buffer pool `CVideoBufferPoolGStreamer` (`Get` / `Return` slot
  bookkeeping over `m_all` / `m_used` / `m_free`);
* IEEE-754 binary64 rounding, needed because `AddData` converts the
  packet timestamps (C `double`s) with `pts / DVD_TIME_BASE * AV_TIME_BASE`;
* the display-geometry part of `SetPictureParams`;
* the controller itself (`Open` / `CreatePipeline` / `AddData` /
  `GetPicture` / `Reset` / `Stop` / `Dispose` and the bus / signal
  callbacks) as a state machine over an explicit codec state record,
  with the results of the external GStreamer library calls supplied as
  parameters.
-/

namespace GstCodec

/-! ## Buffer pool (`CVideoBufferPoolGStreamer`)

`m_all` is a monotonically growing backing array; only its size matters
for the slot bookkeeping, the wrapper objects themselves (and their
map/unmap state, touched via `Unref()` in `Return`) are abstracted away.
`m_used` and `m_free` are `std::deque<int>`: `push_back` appends at the
tail, `pop_front` removes the head, and `Return`'s loop erases the first
occurrence of `id` in `m_used`. -/

structure Pool where
  allSize : ℕ
  used : List ℕ
  free : List ℕ
  deriving Repr, DecidableEq

def Pool.empty : Pool := ⟨0, [], []⟩

/-- `CVideoBufferPoolGStreamer::Get()`: reuse the head of `m_free` if
nonempty, otherwise allocate slot `id = m_all.size()`; either way the
slot index is appended to `m_used`.  Returns the new pool and the index
handed out. -/
def Pool.get (p : Pool) : Pool × ℕ :=
  match p.free with
  | idx :: rest => (⟨p.allSize, p.used ++ [idx], rest⟩, idx)
  | [] => (⟨p.allSize + 1, p.used ++ [p.allSize], []⟩, p.allSize)

/-- `CVideoBufferPoolGStreamer::Return(id)`: unmap the wrapper
(abstracted), erase the first occurrence of `id` from `m_used`, append
`id` to `m_free`. -/
def Pool.Return (p : Pool) (id : ℕ) : Pool :=
  ⟨p.allSize, p.used.erase id, p.free ++ [id]⟩

inductive PoolOp where
  | get : PoolOp
  | ret : ℕ → PoolOp
  deriving Repr, DecidableEq

def Pool.applyOp (p : Pool) : PoolOp → Pool
  | .get => (p.get).1
  | .ret id => p.Return id

def Pool.runOps (p : Pool) : List PoolOp → Pool
  | [] => p
  | op :: rest => (p.applyOp op).runOps rest

/-- A sequence of pool operations is well formed when every `Return`
targets a slot index that is in the used set at that point (in the
program, `Return(id)` is only ever invoked by the release of a buffer
previously handed out by `Get`). -/
def Pool.ValidOps (p : Pool) : List PoolOp → Prop
  | [] => True
  | .get :: rest => (p.applyOp .get).ValidOps rest
  | .ret id :: rest => id ∈ p.used ∧ (p.applyOp (.ret id)).ValidOps rest

/-- The used set and the free set partition the valid slot indices
`{0, ..., allSize - 1}`: both are duplicate-free, no index is in both,
and an index is in one of them exactly when it is a valid index. -/
def Pool.Partition (p : Pool) : Prop :=
  p.used.Nodup ∧ p.free.Nodup ∧
    (∀ i, ¬(i ∈ p.used ∧ i ∈ p.free)) ∧
    (∀ i, (i ∈ p.used ∨ i ∈ p.free) ↔ i < p.allSize)

/-- Inductive invariant: the concatenation of the used and free lists is
a permutation of the valid slot index range. -/
def Pool.Inv (p : Pool) : Prop :=
  (p.used ++ p.free).Perm (List.range p.allSize)

/-! ## Timestamps: IEEE-754 binary64 arithmetic and `AddData`'s conversion

`DemuxPacket.pts` / `DemuxPacket.dts` are C `double`s.  `AddData`
converts them with

    static_cast<int64_t>(packet.pts / DVD_TIME_BASE * AV_TIME_BASE)

which is double-precision arithmetic: a rounded division by
`DVD_TIME_BASE` (1000000), a rounded multiplication by `AV_TIME_BASE`
(1000000), then truncation toward zero by the cast.  `roundB64` below
models IEEE-754 round-to-nearest, ties-to-even, at 53 bits of precision,
for values in the binary64 normal range (the exponent limits and
subnormals are not modelled; every value in the verified computations is
far inside the normal range).  Exact values are carried as rationals. -/

/-- Fuel-driven floor of the base-2 logarithm (the fuel only bounds the
recursion depth; 4200 covers every `ℕ` below `2 ^ 4200`, far beyond any
binary64 numerator/denominator). Equals `⌊log₂ n⌋` for `n ≥ 1`. -/
def log2fuel : ℕ → ℕ → ℕ
  | 0, _ => 0
  | fuel + 1, n => if n ≤ 1 then 0 else 1 + log2fuel fuel (n / 2)

def nlog2 (n : ℕ) : ℕ := log2fuel 4200 n

/-- `⌊log₂ q⌋` for a positive rational: the unique `e` with
`2 ^ e ≤ q < 2 ^ (e + 1)`. -/
def floorLog2 (q : ℚ) : ℤ :=
  let e0 : ℤ := (nlog2 q.num.natAbs : ℤ) - (nlog2 q.den : ℤ)
  if (2 : ℚ) ^ e0 ≤ q then e0 else e0 - 1

/-- Round an exact value to the nearest binary64 value (53-bit mantissa,
ties to even), sign-magnitude. -/
def roundB64 (q : ℚ) : ℚ :=
  if q = 0 then 0
  else
    let a := |q|
    let scale : ℤ := 52 - floorLog2 a
    let m : ℚ := a * (2 : ℚ) ^ scale
    let lo : ℤ := ⌊m⌋
    let fr : ℚ := m - (lo : ℚ)
    let mr : ℤ :=
      if fr < 1/2 then lo
      else if 1/2 < fr then lo + 1
      else if lo % 2 = 0 then lo else lo + 1
    (if q < 0 then -1 else 1) * (mr : ℚ) * (2 : ℚ) ^ (-scale)

/-- C cast `double → int64_t`: truncation toward zero. -/
def truncToInt (q : ℚ) : ℤ := if 0 ≤ q then ⌊q⌋ else -⌊-q⌋

/-- `DVD_TIME_BASE` from `TimingConstants.h`. -/
def DVD_TIME_BASE : ℚ := 1000000

/-- ffmpeg's `AV_TIME_BASE`. -/
def AV_TIME_BASE : ℚ := 1000000

/-- `DVD_NOPTS_VALUE`, the host "no timestamp" sentinel: the double
`(-1LL) << 52 = -4503599627370496.0` (the source's comment gives its
64-bit pattern, 18442240474082181120). -/
def DVD_NOPTS_VALUE : ℚ := -(2 ^ 52)

/-- `GST_CLOCK_TIME_NONE = (GstClockTime)(-1) = 2 ^ 64 - 1`. -/
def GST_CLOCK_TIME_NONE : ℕ := 2 ^ 64 - 1

/-- Reinterpretation of a signed 64-bit value as `guint64` (the ternary
in `AddData` mixes `GST_CLOCK_TIME_NONE : guint64` with an `int64_t`,
so the common type of `pts` / `dts` is `guint64`). -/
def toGuint64 (i : ℤ) : ℕ := (i % (2 ^ 64 : ℤ)).toNat

/-- The non-sentinel branch of `AddData`'s timestamp conversion:
`static_cast<int64_t>(t / DVD_TIME_BASE * AV_TIME_BASE)` in
double-precision arithmetic. -/
def convertTimeBase (t : ℚ) : ℤ :=
  truncToInt (roundB64 (roundB64 (t / DVD_TIME_BASE) * AV_TIME_BASE))

/-- The complete conversion applied to both `packet.pts` and
`packet.dts` in `AddData`:
`(t == DVD_NOPTS_VALUE) ? GST_CLOCK_TIME_NONE : static_cast<int64_t>(t / DVD_TIME_BASE * AV_TIME_BASE)`,
with the result read back at type `guint64`. -/
def convertTs (t : ℚ) : ℕ :=
  if t = DVD_NOPTS_VALUE then GST_CLOCK_TIME_NONE
  else toGuint64 (convertTimeBase t)

/-- The exact (infinite-precision) fixed-ratio conversion the spec
describes: multiply by `AV_TIME_BASE / DVD_TIME_BASE` exactly, then
truncate toward zero.  Since both bases are 1000000 this is truncation
of the input itself.  (Spec-side definition, for the refinement
comparison in C5; the code-side definition is `convertTimeBase`.) -/
def convertTimeBaseExact (t : ℚ) : ℤ :=
  truncToInt (t / DVD_TIME_BASE * AV_TIME_BASE)

/-! ## Controller data model

The controller `CDVDVideoCodecGStreamer` is embedded as a state record.
Pointer-valued members of `GstPipelineData` (and `m_pFrame`) are
modelled by their nullness (`Bool`: handle present or not); the results
of external GStreamer/ffmpeg library calls made during an operation are
supplied as explicit parameters.  The `TARGET_WEBOS` build is embedded
(that is the platform this patch set targets; the `current-pts` poll in
`GetPicture` is compiled in). -/

/-- `enum class StreamState` from the header. -/
inductive StreamState where
  | RESET
  | FLUSHED
  | READY
  | RUNNING
  | EOS
  | ERROR
  deriving Repr, DecidableEq

/-- `CDVDVideoCodec::VCReturn` outcomes used by this codec. -/
inductive VCReturn where
  | VC_NONE
  | VC_ERROR
  | VC_BUFFER
  | VC_PICTURE
  | VC_EOF
  deriving Repr, DecidableEq

/-- The `CDVDStreamInfo` fields this controller branches on, plus the
outcome of `avcodec_find_decoder(hints.codec)` (whether the codec id is
known to ffmpeg). -/
structure Hints where
  width : ℕ
  height : ℕ
  codecKnown : Bool
  deriving Repr, DecidableEq

/-- Settings read through `CServiceBroker` (fixed for a session) and the
platform property probe in `GetPicture`. -/
structure Config where
  /-- `SETTING_VIDEOPLAYER_PREFERGSTREAMERVIDEOSINK`: direct-to-surface
  mode when true, pull mode when false. -/
  preferGstVideoSink : Bool
  /-- `g_object_class_find_property(klass, "current-pts") != nullptr`
  for the video sink's class. -/
  sinkHasCurrentPtsProperty : Bool
  deriving Repr, DecidableEq

/-- Nullness of the handles in `GstPipelineData`. -/
structure PipelineData where
  pipeline : Bool
  app_source : Bool
  queue : Bool
  decoder : Bool
  video_convert : Bool
  video_scale : Bool
  app_sink : Bool
  video_sink : Bool
  input_caps : Bool
  videoInfo : Bool
  bus : Bool
  main_loop : Bool
  deriving Repr, DecidableEq

/-- Controller state: the data members of `CDVDVideoCodecGStreamer`
that the verified operations read or write, plus bookkeeping for which
callbacks have been attached (`gst_bus_add_watch` is unconditional;
`BusSyncHandler`, the sink pad `EventProbe` and `CBAutoPlugSelect` are
attached conditionally). -/
structure Codec where
  data : PipelineData
  threadRunning : Bool
  isReady : Bool
  isPlaying : Bool
  hasSample : Bool
  needData : Bool
  hasSinkLinkedToSurface : Bool
  state : StreamState
  /-- `unsigned long m_currentPts`. -/
  currentPts : ℕ
  /-- `m_videoBuffer.pts` (a double). -/
  videoBufferPts : ℚ
  /-- `m_name`. -/
  name : String
  codecControlFlags : ℤ
  /-- `m_hints` (none before the first `Open` assigns it). -/
  hintsSet : Option Hints
  /-- `m_pFrame != nullptr`. -/
  pFrame : Bool
  /-- `gst_bus_set_sync_handler(bus, BusSyncHandler, ...)` executed
  (tail of a successful `ExportWindow`). -/
  syncHandlerInstalled : Bool
  /-- `gst_pad_add_probe(sinkPad, ..., EventProbe, ...)` executed. -/
  flushProbeInstalled : Bool
  /-- `g_signal_connect(decoder, "autoplug-select", ...)` executed. -/
  autoPlugConnected : Bool
  deriving Repr, DecidableEq

/-- The freshly constructed controller (constructor initialiser list
plus the header's in-class initialisers; `m_state{StreamState::FLUSHED}`). -/
def initCodec : Codec where
  data := ⟨false, false, false, false, false, false, false, false, false,
    false, false, false⟩
  threadRunning := false
  isReady := false
  isPlaying := false
  hasSample := false
  needData := false
  hasSinkLinkedToSurface := false
  state := .FLUSHED
  currentPts := 0
  videoBufferPts := DVD_NOPTS_VALUE
  name := ""
  codecControlFlags := 0
  hintsSet := none
  pFrame := false
  syncHandlerInstalled := false
  flushProbeInstalled := false
  autoPlugConnected := false

/-- Results of the external library calls made by `Open` /
`CreatePipeline` / `ExportWindow`. -/
structure OpenEnv where
  /-- `avcodec_alloc_context3(codec) != nullptr`. -/
  allocCtxOk : Bool
  /-- `gst_caps_to_string(gst_ffmpeg_codecid_to_caps(...))`. -/
  capsStr : String
  /-- `getenv("WAYLAND_DISPLAY")`. -/
  waylandDisplay : Option String
  /-- `gst_parse_launch` returned a pipeline. -/
  parseLaunchOk : Bool
  /-- `gst_bin_get_by_name(..., "video_src") != nullptr`. -/
  appSourceFound : Bool
  /-- `gst_bin_get_by_name(..., "my_decoder") != nullptr`. -/
  decoderFound : Bool
  /-- `gst_bin_get_by_name(..., "video_convert") != nullptr`. -/
  videoConvertFound : Bool
  /-- `gst_bin_get_by_name(..., "video_scale") != nullptr`. -/
  videoScaleFound : Bool
  /-- `gst_bin_get_by_name(..., "my_queue") != nullptr`. -/
  queueFound : Bool
  /-- `gst_bin_get_by_name(..., "video_sink") != nullptr`. -/
  videoSinkFound : Bool
  /-- `gst_bin_get_by_name(..., "app_sink") != nullptr`. -/
  appSinkFound : Bool
  /-- `ExportWindow()` ran to completion (sink name supported, exported
  window supported, `wl_display` obtained), so the bus sync handler got
  installed.  `CreatePipeline` ignores `ExportWindow`'s return value. -/
  exportWindowOk : Bool
  deriving Repr, DecidableEq

/-- The pipeline description string assembled by `CreatePipeline`
(concatenation mirrors the source; `m_videoSink` is `"waylandsink"`).
Only called on the path where the `WAYLAND_DISPLAY` guard passed. -/
def pipelineDesc (cfg : Config) (capsStr : String) (display : String) :
    String :=
  "appsrc" ++ " caps=\"" ++ capsStr ++ "\" name=video_src"
    ++ " ! decodebin name=my_decoder"
    ++ " ! videoconvert name=video_convert"
    ++ " ! videoscale name=video_scale"
    ++ " ! queue name=my_queue"
    ++ (if cfg.preferGstVideoSink then
          " ! " ++ "waylandsink" ++ " display=" ++ display
            ++ " name=video_sink"
        else " ! appsink sync=false max-buffers=2 name=app_sink")

/-- `pipeline.find("decodebin") != std::string::npos`. -/
def containsDecodebin (s : String) : Bool :=
  decide ("decodebin".toList <:+: s.toList)

/-- Common tail of `CreatePipeline` after the sink branch: the
`app_source` null check, the conditional `autoplug-select` connect,
`StartMessageThread`, and the non-auto-plug readiness shortcut. -/
def CreatePipelineTail (autoPlug : Bool) (c : Codec) : Bool × Codec :=
  if ¬c.data.app_source then (false, c)
  else
    let c := if autoPlug then { c with autoPlugConnected := true } else c
    -- StartMessageThread: fails if the main loop already exists;
    -- otherwise SetState(GST_STATE_PLAYING), create the loop, start the
    -- dispatch thread.
    if c.data.main_loop then (false, c)
    else
      let c := { c with data.main_loop := true, threadRunning := true }
      -- if we are not using auto-plugging then playback should not have
      -- to wait for m_isReady
      let c := if ¬autoPlug then { c with isReady := true } else c
      (true, c)

/-- `CDVDVideoCodecGStreamer::CreatePipeline` (returns the C++ return
value and the new controller state).  Failure paths return without
cleaning up what was already assigned, exactly as the source does. -/
def CreatePipeline (cfg : Config) (env : OpenEnv) (h : Hints) (c : Codec) :
    Bool × Codec :=
  if ¬h.codecKnown then (false, c)
  else if ¬env.allocCtxOk then (false, c)
  else
    -- data.input_caps = gst_ffmpeg_codecid_to_caps(...)
    let c := { c with data.input_caps := true }
    -- the WAYLAND_DISPLAY guard sits inside the string-building branch,
    -- before gst_parse_launch
    if cfg.preferGstVideoSink ∧ env.waylandDisplay = none then (false, c)
    else
      let desc := pipelineDesc cfg env.capsStr (env.waylandDisplay.getD "")
      if ¬env.parseLaunchOk then (false, c)
      else
        let autoPlug := containsDecodebin desc
        let c := { c with
          data.pipeline := true
          data.app_source := env.appSourceFound
          data.decoder := env.decoderFound
          data.video_convert := env.videoConvertFound
          data.video_scale := env.videoScaleFound
          data.queue := env.queueFound
          data.bus := true }
        -- gst_bus_add_watch(data.bus, CBBusMessage, this) is attached
        -- unconditionally here
        if cfg.preferGstVideoSink then
          let c := { c with data.video_sink := env.videoSinkFound }
          if ¬env.videoSinkFound then (false, c)
          else
            -- ExportWindow(); return value ignored; on completion it
            -- installs the bus sync handler.  Then the sink pad probe.
            let c := { c with
              syncHandlerInstalled := env.exportWindowOk
              flushProbeInstalled := true }
            CreatePipelineTail autoPlug c
        else
          let c := { c with data.app_sink := env.appSinkFound }
          if ¬env.appSinkFound then (false, c)
          else CreatePipelineTail autoPlug c

/-- Result of `Open`: the new instance-guard value, the C++ return value
and the new controller state. -/
structure OpenResult where
  guard : Bool
  ret : Bool
  codec : Codec
  deriving Repr, DecidableEq

/-- `CDVDVideoCodecGStreamer::Open`.  The process-wide
`m_InstanceGuard` is passed and returned explicitly
(`m_InstanceGuard.exchange(true)` at entry; `exchange(false)` on the
failure paths). -/
def Open (cfg : Config) (env : OpenEnv) (h : Hints) (guard : Bool)
    (c : Codec) : OpenResult :=
  if guard then ⟨true, false, c⟩
  else
    -- m_hints = hints; m_options = options
    let c := { c with hintsSet := some h }
    if h.width = 0 ∨ h.height = 0 then ⟨false, false, c⟩
    else
      -- direct-to-surface branch: m_videoBuffer.Reset() (pts becomes
      -- DVD_NOPTS_VALUE), dimensions/process-info reporting
      let c := if cfg.preferGstVideoSink then
          { c with videoBufferPts := DVD_NOPTS_VALUE }
        else c
      -- if(!CreatePipeline(hints, options)) { release guard; return false }
      let r := CreatePipeline cfg env h c
      if r.1 then ⟨true, true, r.2⟩ else ⟨false, false, r.2⟩

/-- `CDVDVideoCodecGStreamer::Dispose`: release every handle, clear the
cached pts, flags and the surface link.  The callback-attachment
bookkeeping is cleared too: the bus, pad and decoder objects the
callbacks were attached to are released here. -/
def Dispose (c : Codec) : Codec :=
  { c with
    data := ⟨false, false, false, false, false, false, false, false,
      false, false, false, false⟩
    currentPts := 0
    codecControlFlags := 0
    pFrame := false
    hasSinkLinkedToSurface := false
    syncHandlerInstalled := false
    flushProbeInstalled := false
    autoPlugConnected := false }

/-- `CDVDVideoCodecGStreamer::Stop`: conditional readiness clear, quit
and join the message thread, `Dispose`, release the instance guard. -/
def Stop (_guard : Bool) (c : Codec) : Bool × Codec :=
  let c := if c.isReady ∧ c.data.app_source then { c with isReady := false }
    else c
  let c := if c.threadRunning then { c with threadRunning := false } else c
  (false, Dispose c)

/-- `CDVDVideoCodecGStreamer::Reset`.  Returns the new state and whether
the flush-start/flush-stop events were sent into the pipeline. -/
def Reset (cfg : Config) (c : Codec) : Codec × Bool :=
  if ¬c.data.pipeline then (c, false)
  else
    let c := if cfg.preferGstVideoSink then
        { c with videoBufferPts := DVD_NOPTS_VALUE }
      else c
    ({ c with state := .FLUSHED }, true)

/-! ## Ingest path: `AddData` -/

/-- The `DemuxPacket` fields `AddData` reads.  `pts`, `dts` and
`duration` are C `double`s. -/
structure DemuxPacket where
  /-- `packet.pData != nullptr`. -/
  pDataPresent : Bool
  pts : ℚ
  dts : ℚ
  duration : ℚ
  iSize : ℕ
  deriving Repr, DecidableEq

/-- The `GstBuffer` handed to the `push-buffer` signal: timestamps are
`GstClockTime` (`guint64`).  (`GST_BUFFER_DURATION` receives
`packet.duration` through C's implicit double→guint64 conversion, kept
here as the raw value: no claim depends on it.) -/
structure PushedBuffer where
  dts : ℕ
  pts : ℕ
  duration : ℚ
  size : ℕ
  deriving Repr, DecidableEq

/-- Result of `AddData`: guard (a push failure triggers `Stop`, which
releases it), new controller state, the C++ return value, and the
buffer pushed into the `appsrc` input stage (none when the packet was
soft-ignored). -/
structure AddDataResult where
  guard : Bool
  codec : Codec
  ret : Bool
  pushed : Option PushedBuffer
  deriving Repr, DecidableEq

/-- `CDVDVideoCodecGStreamer::AddData`.  `pushOk` is the
`GstFlowReturn` of the `push-buffer` signal (`GST_FLOW_OK` or not). -/
def AddData (cfg : Config) (guard : Bool) (c : Codec) (p : DemuxPacket)
    (pushOk : Bool) : AddDataResult :=
  if ¬p.pDataPresent then ⟨guard, c, true, none⟩
  else if ¬c.threadRunning then ⟨guard, c, true, none⟩
  else
    let pts := convertTs p.pts
    -- direct-to-surface and the sink not yet linked: if one frame was
    -- already let through (m_isReady), keep withholding
    if cfg.preferGstVideoSink ∧ ¬c.hasSinkLinkedToSurface ∧ c.isReady then
      ⟨guard, c, true, none⟩
    -- first frame allow through so gstreamer will auto-plug; `pts` has
    -- type guint64, so the comparison `pts > 0` is unsigned
    else if ¬c.isReady ∧ 0 < pts then ⟨guard, c, true, none⟩
    else
      let dts := convertTs p.dts
      let buf : PushedBuffer := ⟨dts, pts, p.duration, p.iSize⟩
      if pushOk then ⟨guard, c, true, some buf⟩
      else
        -- GST_FLOW error: full Stop, report failure
        let s := Stop guard c
        ⟨s.1, s.2, false, some buf⟩

/-! ## Output path: `GetPicture` -/

/-- Results of the external calls `GetPicture` makes. -/
structure GetPicEnv where
  /-- the sink's `current-pts` property value. -/
  sinkCurrentPts : ℕ
  /-- `gst_app_sink_try_pull_sample` returned a sample within the
  timeout. -/
  samplePulled : Bool
  /-- `gst_sample_get_buffer != nullptr`. -/
  sampleHasBuffer : Bool
  /-- `gst_buffer_map` succeeded. -/
  bufferMapOk : Bool
  /-- `gst_sample_get_caps != nullptr`. -/
  capsOk : Bool
  /-- `gst_video_info_from_caps` succeeded. -/
  videoInfoFromCapsOk : Bool
  /-- `gst_video_frame_map` succeeded. -/
  frameMapOk : Bool
  deriving Repr, DecidableEq

/-- Result of `GetPicture`: new controller state, outcome, the pts
carried by a direct-to-surface picture (pull-mode pictures carry the
frame's own timestamps, set in the un-modelled metadata part of
`SetPictureParams`), and whether a wrapper was taken from the buffer
pool. -/
structure GetPicResult where
  codec : Codec
  ret : VCReturn
  picturePts : Option ℕ
  poolBufferTaken : Bool
  deriving Repr, DecidableEq

/-- `CDVDVideoCodecGStreamer::GetPicture` (TARGET_WEBOS build: the
`current-pts` poll block is compiled in). -/
def GetPicture (cfg : Config) (c : Codec) (env : GetPicEnv) : GetPicResult :=
  if ¬c.isReady then ⟨c, .VC_NONE, none, false⟩
  else if cfg.preferGstVideoSink then
    -- direct-to-surface branch
    if ¬c.hasSinkLinkedToSurface then ⟨c, .VC_NONE, none, false⟩
    else if c.state = .ERROR then ⟨c, .VC_ERROR, none, false⟩
    else if c.state = .EOS then ⟨c, .VC_EOF, none, false⟩
    else if c.state = .FLUSHED then ⟨c, .VC_BUFFER, none, false⟩
    else if cfg.sinkHasCurrentPtsProperty ∧ env.sinkCurrentPts = c.currentPts
    then
      -- nothing new composited: queue more data
      ⟨c, .VC_BUFFER, none, false⟩
    else
      let c := if cfg.sinkHasCurrentPtsProperty then
          { c with currentPts := env.sinkCurrentPts }
        else c
      -- release the previous placeholder, take a fresh wrapper from the
      -- pool, hand out a picture carrying m_currentPts
      ⟨c, .VC_PICTURE, some c.currentPts, true⟩
  else
    -- pull branch
    if ¬env.samplePulled then ⟨c, .VC_BUFFER, none, false⟩
    else if ¬env.sampleHasBuffer then ⟨c, .VC_ERROR, none, false⟩
    else if ¬env.bufferMapOk then ⟨c, .VC_ERROR, none, false⟩
    else
      -- derive data.videoInfo from the sample caps once
      if ¬c.data.videoInfo ∧ ¬env.capsOk then ⟨c, .VC_ERROR, none, false⟩
      else
        let c := if ¬c.data.videoInfo then
            { c with data.videoInfo := true }
          else c
        -- note: gst_video_info_new() has run by the time
        -- gst_video_info_from_caps fails, so videoInfo stays allocated
        if ¬env.videoInfoFromCapsOk then ⟨c, .VC_ERROR, none, false⟩
        else
          let c := { c with pFrame := true }
          if ¬env.frameMapOk then
            ⟨{ c with pFrame := false }, .VC_ERROR, none, false⟩
          else
            -- SetPictureParams, pool Get, SetRef
            ⟨c, .VC_PICTURE, none, true⟩

/-! ## Bus messages and pipeline callbacks -/

/-- The bus message kinds `CBBusMessage` distinguishes. -/
inductive GstMessage where
  | error
  | warning
  | qos
  | eos
  | stateChanged (srcIsPipeline : Bool) (newStatePlaying : Bool)
  | other
  deriving Repr, DecidableEq

/-- `CDVDVideoCodecGStreamer::CBBusMessage` (dispatched on the message
thread).  The ERROR case clears readiness, enters `StreamState::ERROR`
and runs the full `Stop` (which releases the instance guard). -/
def CBBusMessage (guard : Bool) (c : Codec) : GstMessage → Bool × Codec
  | .error => Stop guard { c with isReady := false, state := .ERROR }
  | .eos => (guard, { c with state := .EOS, isReady := false })
  | .stateChanged srcIsPipeline playing =>
      (guard, if srcIsPipeline then { c with isPlaying := playing } else c)
  | _ => (guard, c)

/-- `CDVDVideoCodecGStreamer::CBAutoPlugSelect`: when decodebin offers a
decoder factory, record its name and signal readiness. -/
def CBAutoPlugSelect (c : Codec) (isFactory isDecoder _useHardware : Bool)
    (factoryName : String) : Codec :=
  if ¬isFactory then c
  else if isDecoder then
    { c with name := "gs-" ++ factoryName, isReady := true }
  else c

/-- `CDVDVideoCodecGStreamer::BusSyncHandler`: on a
prepare-window-handle message from an overlay-capable sink, attach the
compositor surface and the fixed render rectangle, and mark the sink
linked. -/
def BusSyncHandler (c : Codec) (isPrepareWindowMsg srcIsOverlay : Bool) :
    Codec :=
  if isPrepareWindowMsg ∧ srcIsOverlay then
    { c with hasSinkLinkedToSurface := true }
  else c

/-- `CDVDVideoCodecGStreamer::EventProbe` on the sink pad: a FLUSH_STOP
event moves the stream state to FLUSHED. -/
def EventProbe (c : Codec) (isFlushStop : Bool) : Codec :=
  if isFlushStop then { c with state := .FLUSHED } else c

/-- `CDVDVideoCodecGStreamer::CBSeekData`: record the reported position
as the current presentation time. -/
def CBSeekData (c : Codec) (position : ℕ) : Codec :=
  { c with currentPts := position }

/-- `CDVDVideoCodecGStreamer::CBNewSample`. -/
def CBNewSample (c : Codec) : Codec :=
  { c with hasSample := true }

/-! ## Traces

The host serialises `Open` / `AddData` / `GetPicture` / `Reset` / `Stop`
on the caller thread; the bus and signal callbacks arrive from the
pipeline's threads.  The sequential trace model interleaves both kinds
of step.  An asynchronous callback can only fire while the machinery it
is attached to exists: each callback step is guarded by the
corresponding attachment/liveness flags and is a no-op otherwise (the
bus watch needs the dispatch thread, the signal handlers need their
objects and a started pipeline). -/

structure World where
  guard : Bool
  codec : Codec
  deriving Repr, DecidableEq

def initWorld : World := ⟨false, initCodec⟩

inductive Ev where
  | evOpen (h : Hints) (env : OpenEnv)
  | evAddData (p : DemuxPacket) (pushOk : Bool)
  | evGetPicture (env : GetPicEnv)
  | evReset
  | evStop
  | evBusMessage (msg : GstMessage)
  | evAutoPlug (isFactory isDecoder useHardware : Bool) (nm : String)
  | evBusSync (isPrepareWindowMsg srcIsOverlay : Bool)
  | evFlushStop
  | evSeekData (pos : ℕ)
  | evNewSample
  deriving Repr, DecidableEq

def Ev.isOpen : Ev → Bool
  | .evOpen _ _ => true
  | _ => false

def stepW (cfg : Config) (w : World) : Ev → World
  | .evOpen h env =>
      let r := Open cfg env h w.guard w.codec
      ⟨r.guard, r.codec⟩
  | .evAddData p pushOk =>
      let r := AddData cfg w.guard w.codec p pushOk
      ⟨r.guard, r.codec⟩
  | .evGetPicture env => ⟨w.guard, (GetPicture cfg w.codec env).codec⟩
  | .evReset => ⟨w.guard, (Reset cfg w.codec).1⟩
  | .evStop =>
      let r := Stop w.guard w.codec
      ⟨r.1, r.2⟩
  | .evBusMessage msg =>
      if w.codec.threadRunning ∧ w.codec.data.bus then
        let r := CBBusMessage w.guard w.codec msg
        ⟨r.1, r.2⟩
      else w
  | .evAutoPlug isFactory isDecoder useHw nm =>
      if w.codec.threadRunning ∧ w.codec.data.decoder ∧
          w.codec.autoPlugConnected then
        ⟨w.guard, CBAutoPlugSelect w.codec isFactory isDecoder useHw nm⟩
      else w
  | .evBusSync isPrepare srcOverlay =>
      if w.codec.data.pipeline ∧ w.codec.syncHandlerInstalled then
        ⟨w.guard, BusSyncHandler w.codec isPrepare srcOverlay⟩
      else w
  | .evFlushStop =>
      if w.codec.data.pipeline ∧ w.codec.flushProbeInstalled then
        ⟨w.guard, EventProbe w.codec true⟩
      else w
  | .evSeekData pos =>
      if w.codec.threadRunning ∧ w.codec.data.app_source then
        ⟨w.guard, CBSeekData w.codec pos⟩
      else w
  | .evNewSample =>
      if w.codec.threadRunning ∧ w.codec.data.app_sink then
        ⟨w.guard, CBNewSample w.codec⟩
      else w

def runW (cfg : Config) (w : World) : List Ev → World
  | [] => w
  | e :: rest => runW cfg (stepW cfg w e) rest

/-! ## `SetPictureParams`: display geometry

The aspect-ratio / display-size block of `SetPictureParams`:

    double aspect_ratio = 0;
    AVRational pixel_aspect = { info.par_n, info.par_d };
    if (pixel_aspect.num)
      aspect_ratio = av_q2d(pixel_aspect) * iWidth / iHeight;
    if (aspect_ratio <= 0.0) aspect_ratio = iWidth / iHeight;
    iDisplayWidth  = ((int)lrint(iHeight * aspect_ratio)) & -3;
    iDisplayHeight = iHeight;
    if (iDisplayWidth > iWidth) {
      iDisplayWidth  = iWidth;
      iDisplayHeight = ((int)lrint(iWidth / aspect_ratio)) & -3;
    }

The C computation is in `double`; the embedding carries the values
exactly (every branch is decided by a sign test or an integer
comparison, and the concrete inputs used in the theorems are chosen so
that the corresponding doubles compute these exact values). -/

/-- `lrint` under the default rounding mode: round to nearest integer,
ties to even. -/
def rint (q : ℚ) : ℤ :=
  let lo := ⌊q⌋
  let fr := q - (lo : ℚ)
  if fr < 1/2 then lo
  else if 1/2 < fr then lo + 1
  else if lo % 2 = 0 then lo else lo + 1

/-- The `GstVideoInfo` fields the display-geometry code reads
(`pVideoPicture->iWidth/iHeight` are assigned from `info.width/height`
just above this block). -/
structure FrameGeom where
  width : ℤ
  height : ℤ
  par_n : ℤ
  par_d : ℤ
  deriving Repr, DecidableEq

/-- The display-geometry computation: returns
`(iDisplayWidth, iDisplayHeight)`.  `x & -3` is `Int.land x (-3)`. -/
def SetPictureParamsGeom (g : FrameGeom) : ℤ × ℤ :=
  let iWidth := g.width
  let iHeight := g.height
  let aspect0 : ℚ := if g.par_n ≠ 0 then
      (g.par_n : ℚ) / (g.par_d : ℚ) * (iWidth : ℚ) / (iHeight : ℚ)
    else 0
  let aspect : ℚ := if aspect0 ≤ 0 then (iWidth : ℚ) / (iHeight : ℚ)
    else aspect0
  let dw := Int.land (rint ((iHeight : ℚ) * aspect)) (-3)
  if dw > iWidth then
    (iWidth, Int.land (rint ((iWidth : ℚ) / aspect)) (-3))
  else (dw, iHeight)

/-! ## Concrete fixtures used by witnesses and counterexamples -/

/-- Pull-mode configuration (direct-to-surface off). -/
def cfgPull : Config := ⟨false, false⟩

/-- Direct-to-surface configuration, sink exposing `current-pts`. -/
def cfgDirect : Config := ⟨true, true⟩

/-- An environment in which every external library call succeeds. -/
def envAllOk : OpenEnv :=
  ⟨true, "video/x-h264", some "wayland-0", true, true, true, true, true,
    true, true, true, true⟩

def hintsHD : Hints := ⟨1920, 1080, true⟩

/-- World after a successful pull-mode `Open` on a fresh controller. -/
def openedPullW : World := stepW cfgPull initWorld (.evOpen hintsHD envAllOk)

/-- World after a successful direct-to-surface `Open`. -/
def openedDirectW : World :=
  stepW cfgDirect initWorld (.evOpen hintsHD envAllOk)

/-- ... after the sink has bound to the compositor surface. -/
def linkedDirectW : World :=
  stepW cfgDirect openedDirectW (.evBusSync true true)

/-- ... after decodebin has selected a decoder (readiness signalled). -/
def readyDirectW : World :=
  stepW cfgDirect linkedDirectW (.evAutoPlug true true true "dec")

/-- ... after a bus ERROR message. -/
def erroredDirectW : World :=
  stepW cfgDirect readyDirectW (.evBusMessage .error)

/-- A packet with a positive (one second) timestamp. -/
def pkt1s : DemuxPacket := ⟨true, 1000000, 1000000, 0, 4096⟩

/-- A packet whose timestamps convert to 0. -/
def pkt00 : DemuxPacket := ⟨true, 0, 0, 0, 4096⟩

/-- A packet carrying the host sentinel in both timestamps. -/
def pktNoPts : DemuxPacket :=
  ⟨true, DVD_NOPTS_VALUE, DVD_NOPTS_VALUE, 0, 4096⟩

/-- `GetPicture` environment: sink reports `current-pts` 0. -/
def genvPts0 : GetPicEnv := ⟨0, true, true, true, true, true, true⟩

/-- `GetPicture` environment: sink reports `current-pts` 40000. -/
def genvPts40000 : GetPicEnv := ⟨40000, true, true, true, true, true, true⟩

/-! ## Two controller instances sharing the process-wide guard -/

structure World2 where
  guard : Bool
  a : Codec
  b : Codec
  deriving Repr, DecidableEq

inductive Who where
  | a
  | b
  deriving Repr, DecidableEq

def World2.codecOf (w : World2) : Who → Codec
  | .a => w.a
  | .b => w.b

/-- One step of one of the two instances; `m_InstanceGuard` is static,
so it is shared. -/
def step2 (cfg : Config) (w : World2) : Who → Ev → World2
  | .a, e =>
      let r := stepW cfg ⟨w.guard, w.a⟩ e
      ⟨r.guard, r.codec, w.b⟩
  | .b, e =>
      let r := stepW cfg ⟨w.guard, w.b⟩ e
      ⟨r.guard, w.a, r.codec⟩

/-! ## Invariants used in the trace proofs -/

/-- Liveness invariant tying readiness to the message thread, the
message thread to the `appsrc` handle, and the message thread to the
instance guard. -/
def WInv (w : World) : Prop :=
  (w.codec.isReady = true → w.codec.threadRunning = true) ∧
    (w.codec.threadRunning = true → w.codec.data.app_source = true) ∧
    (w.codec.threadRunning = true → w.guard = true)

/-- State after a bus ERROR was handled: terminal ERROR with the
pipeline torn down (the handler ran `Stop`). -/
def ErrInv (c : Codec) : Prop :=
  c.state = .ERROR ∧ c.data.pipeline = false ∧
    c.threadRunning = false ∧ c.isReady = false

/-! ## Proofs: buffer pool invariant -/

theorem Pool.partition_of_inv {p : Pool} (h : p.Inv) : p.Partition := by
  have hnodup : (p.used ++ p.free).Nodup :=
    (h.nodup_iff).mpr (List.nodup_range _)
  obtain ⟨hu, hf, hdisj⟩ := List.nodup_append.mp hnodup
  refine ⟨hu, hf, ?_, ?_⟩
  · rintro i ⟨h1, h2⟩
    exact hdisj h1 h2
  · intro i
    rw [← List.mem_append, h.mem_iff, List.mem_range]

theorem Pool.inv_empty : Pool.empty.Inv := by
  simp [Pool.Inv, Pool.empty]

theorem Pool.inv_get {p : Pool} (h : p.Inv) : (p.applyOp .get).Inv := by
  obtain ⟨n, used, free⟩ := p
  cases free with
  | nil =>
    have hused : used.Perm (List.range n) := by
      have h' := h
      simp only [Pool.Inv, List.append_nil] at h'
      exact h'
    have hstep : (used ++ [n]).Perm (List.range n ++ [n]) :=
      hused.append_right [n]
    simpa [Pool.Inv, Pool.applyOp, Pool.get, List.range_succ] using hstep
  | cons idx rest =>
    simp only [Pool.Inv, Pool.applyOp, Pool.get, List.append_assoc,
      List.singleton_append]
    exact h

theorem Pool.inv_ret {p : Pool} {k : ℕ} (h : p.Inv) (hk : k ∈ p.used) :
    (p.applyOp (.ret k)).Inv := by
  obtain ⟨n, used, free⟩ := p
  simp only [Pool.Inv, Pool.applyOp, Pool.Return] at h ⊢
  refine List.Perm.trans ?_ h
  have h1 : (free ++ [k]).Perm (k :: free) := by
    simp
  have h2 : (used.erase k ++ (k :: free)).Perm (k :: (used.erase k ++ free)) :=
    List.perm_middle
  have h3 : (k :: used.erase k).Perm used :=
    (List.perm_cons_erase hk).symm
  exact ((List.Perm.append_left _ h1).trans h2).trans (h3.append_right free)

theorem Pool.inv_runOps {p : Pool} (hp : p.Inv) :
    ∀ {ops : List PoolOp}, p.ValidOps ops → (p.runOps ops).Inv := by
  intro ops
  induction ops generalizing p with
  | nil => intro _; exact hp
  | cons op rest ih =>
    intro hv
    cases op with
    | get => exact ih (Pool.inv_get hp) hv
    | ret k =>
      obtain ⟨hk, hrest⟩ := hv
      exact ih (Pool.inv_ret hp hk) hrest

end GstCodec

/-- C3: for every well-formed sequence of `Get` / `Return` operations on
the buffer pool (each `Return` targeting a currently used slot, as the
buffer-release path guarantees), the used set and the free set partition
the valid slot indices `{0, ..., m_all.size() - 1}`: both sets are
duplicate-free, no index is in both, and no valid index is in neither.
`Get` moves the head of the free list into the used set (or allocates a
fresh index when the free list is empty) and `Return` moves an index
from the used set back to the free set. -/
theorem C3_pool_partition (ops : List GstCodec.PoolOp)
    (hv : GstCodec.Pool.empty.ValidOps ops) :
    (GstCodec.Pool.empty.runOps ops).Partition :=
  GstCodec.Pool.partition_of_inv
    (GstCodec.Pool.inv_runOps GstCodec.Pool.inv_empty hv)

/-- Witness for C3: a concrete well-formed operation sequence
(get, get, return of slot 0, get — the third get reuses slot 0). -/
theorem C3_pool_partition_witness :
    GstCodec.Pool.empty.ValidOps [.get, .get, .ret 0, .get] ∧
      (GstCodec.Pool.empty.runOps [.get, .get, .ret 0, .get]).Partition := by
  have hv : GstCodec.Pool.empty.ValidOps [.get, .get, .ret 0, .get] := by
    simp [GstCodec.Pool.ValidOps, GstCodec.Pool.applyOp, GstCodec.Pool.get,
      GstCodec.Pool.Return, GstCodec.Pool.empty]
  exact ⟨hv, C3_pool_partition _ hv⟩

open GstCodec

/-! ## Lifecycle: `Reset` -/

/-- C9: calling `Reset` when no pipeline exists is a complete no-op: it
returns immediately, sends no flush-start/flush-stop events and leaves
every controller field (stream state, cached presentation timestamp,
everything) unchanged; in particular this holds right after `Stop` has
torn the pipeline down. -/
theorem C9_reset_no_pipeline_noop (cfg : Config) (c : Codec)
    (h : c.data.pipeline = false) :
    Reset cfg c = (c, false) ∧
      ∀ g c0, Reset cfg (Stop g c0).2 = ((Stop g c0).2, false) := by
  constructor
  · simp [Reset, h]
  · intro g c0
    simp [Reset, Stop, Dispose]

/-- Witness for C9 at the freshly constructed controller. -/
theorem C9_reset_no_pipeline_noop_witness :
    Reset cfgPull initCodec = (initCodec, false) :=
  (C9_reset_no_pipeline_noop cfgPull initCodec rfl).1

/-! ## Timestamp conversion -/

/-- Any buffer `AddData` pushes carries exactly the converted packet
timestamps (helper, shared by the C6 proof and witnesses). -/
theorem AddData_pushed_shape (cfg : Config) (g : Bool) (c : Codec)
    (p : DemuxPacket) (ok : Bool) :
    (AddData cfg g c p ok).pushed = none ∨
      (AddData cfg g c p ok).pushed =
        some ⟨convertTs p.dts, convertTs p.pts, p.duration, p.iSize⟩ := by
  simp only [AddData]
  split_ifs <;> simp

/-- C6: a packet timestamp equal to the host sentinel `DVD_NOPTS_VALUE`
converts to exactly the pipeline sentinel `GST_CLOCK_TIME_NONE` (never a
finite value), and any buffer `AddData` pushes for such a packet carries
`GST_CLOCK_TIME_NONE` in the corresponding timestamp field. -/
theorem C6_sentinel_maps_to_sentinel (p : DemuxPacket)
    (hpts : p.pts = DVD_NOPTS_VALUE) (hdts : p.dts = DVD_NOPTS_VALUE) :
    convertTs p.pts = GST_CLOCK_TIME_NONE ∧
      convertTs p.dts = GST_CLOCK_TIME_NONE ∧
      ∀ cfg g c ok buf, (AddData cfg g c p ok).pushed = some buf →
        buf.pts = GST_CLOCK_TIME_NONE ∧ buf.dts = GST_CLOCK_TIME_NONE := by
  have hconv : ∀ t : ℚ, t = DVD_NOPTS_VALUE →
      convertTs t = GST_CLOCK_TIME_NONE := by
    intro t ht
    simp [convertTs, ht]
  refine ⟨hconv _ hpts, hconv _ hdts, ?_⟩
  intro cfg g c ok buf hbuf
  rcases AddData_pushed_shape cfg g c p ok with h | h
  · rw [h] at hbuf
    exact absurd hbuf (by simp)
  · rw [h] at hbuf
    obtain rfl := Option.some_injective _ hbuf.symm
    exact ⟨hconv _ hpts, hconv _ hdts⟩

/-- Witness for C6 at a concrete sentinel-carrying packet. -/
theorem C6_sentinel_maps_to_sentinel_witness :
    convertTs pktNoPts.pts = GST_CLOCK_TIME_NONE ∧
      convertTs pktNoPts.dts = GST_CLOCK_TIME_NONE :=
  ⟨(C6_sentinel_maps_to_sentinel pktNoPts rfl rfl).1,
    (C6_sentinel_maps_to_sentinel pktNoPts rfl rfl).2.1⟩

set_option maxRecDepth 40000 in
/-- C5 counterexample: the conversion in `AddData` is not exact
fixed-ratio integer arithmetic.  At the integer microsecond timestamp
249, the double-precision `pts / DVD_TIME_BASE * AV_TIME_BASE` rounds
down and the truncating cast yields 248, while the exact fixed-ratio
conversion yields 249.  (249 is not the sentinel, so the conversion
branch under test is the one the claim describes.) -/
theorem C5_counterexample :
    convertTimeBase 249 = 248 ∧ convertTimeBaseExact 249 = 249 ∧
      convertTimeBase 249 ≠ convertTimeBaseExact 249 ∧
      (249 : ℚ) ≠ DVD_NOPTS_VALUE := by
  refine ⟨?_, ?_, ?_, ?_⟩
  · with_unfolding_all decide
  · with_unfolding_all decide
  · with_unfolding_all decide
  · with_unfolding_all decide

set_option maxRecDepth 40000 in
set_option maxHeartbeats 4000000 in
/-- C5 (amended): `AddData` converts present timestamps with a
fixed-ratio divide/multiply carried out in double-precision
floating-point arithmetic (`packet.pts` is a C double), followed by
truncation to a 64-bit integer — not in exact 64-bit integer
arithmetic.  The rounding is harmless for small values — every integer
microsecond timestamp from 0 to 248 is preserved — but 249 is the least
natural number on which rounding changes the value (it maps to 248). -/
theorem C5_amended_double_rounding :
    (∀ n : Fin 249, convertTimeBase ((n : ℕ) : ℚ) = ((n : ℕ) : ℤ)) ∧
      convertTimeBase 249 = 248 := by
  constructor
  · with_unfolding_all decide
  · with_unfolding_all decide

/-! ## Ingest gating before readiness (C1) -/

set_option maxRecDepth 40000 in
/-- C1 counterexample: with auto-plug selection pending (readiness flag
false, fresh successful pull-mode `Open`, message thread running), the
first `AddData` call carrying a packet with a positive converted
timestamp is NOT pushed into the pipeline input stage — `AddData`
returns true while pushing nothing and leaving the controller
unchanged.  The claim's "exactly the first such packet is pushed
unconditionally" fails on the very first such packet. -/
theorem C1_counterexample :
    openedPullW.codec.isReady = false ∧
      openedPullW.codec.threadRunning = true ∧
      0 < convertTs pkt1s.pts ∧
      (AddData cfgPull openedPullW.guard openedPullW.codec pkt1s
          true).pushed = none ∧
      (AddData cfgPull openedPullW.guard openedPullW.codec pkt1s
          true).ret = true ∧
      (AddData cfgPull openedPullW.guard openedPullW.codec pkt1s
          true).codec = openedPullW.codec := by
  refine ⟨by decide, by decide, ?_, ?_, ?_, ?_⟩
  · with_unfolding_all decide
  · with_unfolding_all rfl
  · with_unfolding_all rfl
  · with_unfolding_all rfl

/-- C1 (amended): while the auto-plug-selection callback has not yet
reported a decoder (readiness flag false), `AddData` soft-ignores EVERY
packet whose converted timestamp is positive — no positive-timestamp
packet at all is admitted (not even the first): the call returns true,
pushes nothing and leaves all state unchanged.  Only packets whose
converted timestamp equals 0 (in practice the stream's first packet)
are pushed through, which is what unblocks auto-selection. -/
theorem C1_amended_readiness_gating (cfg : Config) (g : Bool) (c : Codec)
    (p : DemuxPacket) (ok : Bool) (h1 : p.pDataPresent = true)
    (h2 : c.threadRunning = true) (h3 : c.isReady = false) :
    (0 < convertTs p.pts →
      AddData cfg g c p ok = ⟨g, c, true, none⟩) ∧
      (convertTs p.pts = 0 → ok = true →
        AddData cfg g c p ok =
          ⟨g, c, true, some ⟨convertTs p.dts, 0, p.duration, p.iSize⟩⟩) := by
  constructor
  · intro hpts
    simp [AddData, h1, h2, h3, hpts, Nat.pos_iff_ne_zero.mp hpts]
  · intro hpts hok
    simp [AddData, h1, h2, h3, hpts, hok]

set_option maxRecDepth 40000 in
/-- Witness for C1 (amended), both conjuncts, at the post-`Open`
pull-mode state: the positive-timestamp packet is soft-ignored, the
zero-timestamp packet is pushed. -/
theorem C1_amended_readiness_gating_witness :
    AddData cfgPull true openedPullW.codec pkt1s true =
        ⟨true, openedPullW.codec, true, none⟩ ∧
      AddData cfgPull true openedPullW.codec pkt00 true =
        ⟨true, openedPullW.codec, true, some ⟨0, 0, 0, 4096⟩⟩ := by
  constructor
  · exact (C1_amended_readiness_gating cfgPull true openedPullW.codec pkt1s
      true (by decide) (by decide) (by decide)).1
      (by with_unfolding_all decide)
  · have h := (C1_amended_readiness_gating cfgPull true openedPullW.codec
      pkt00 true (by decide) (by decide) (by decide)).2
      (by with_unfolding_all decide) rfl
    rw [h]
    have hdts : convertTs pkt00.dts = 0 := by with_unfolding_all decide
    rw [hdts]
    rfl

/-! ## Direct-to-surface `GetPicture` (C8) -/

/-- C8 counterexample: a reachable direct-to-surface state (successful
`Open`, sink already linked to the surface, auto-plug selection still
pending) in which the stream state is FLUSHED, yet `GetPicture` returns
`VC_NONE` — not the `VC_BUFFER` the claimed state mapping requires —
because the readiness check precedes the state mapping. -/
theorem C8_counterexample :
    linkedDirectW.codec.hasSinkLinkedToSurface = true ∧
      linkedDirectW.codec.state = .FLUSHED ∧
      linkedDirectW.codec.isReady = false ∧
      (GetPicture cfgDirect linkedDirectW.codec genvPts0).ret = .VC_NONE ∧
      VCReturn.VC_NONE ≠ VCReturn.VC_BUFFER := by
  decide

/-- C8 (amended): in direct-to-surface mode, for every `GetPicture`
call made after the sink is linked AND readiness has been signalled:
`ERROR` maps to the error outcome, `EOS` to end-of-stream, `FLUSHED` to
try-again; otherwise, when the sink's `current-pts` property is
unchanged since the last poll the call returns try-again, and when it
changed the cached timestamp is updated and a picture carrying that
timestamp (with a placeholder wrapper taken from the buffer pool) is
returned.  When readiness has not been signalled the call returns
`VC_NONE` instead. -/
theorem C8_amended_direct_outcomes (cfg : Config) (c : Codec)
    (env : GetPicEnv) (hprefer : cfg.preferGstVideoSink = true)
    (hprop : cfg.sinkHasCurrentPtsProperty = true)
    (hready : c.isReady = true) (hlink : c.hasSinkLinkedToSurface = true) :
    (c.state = .ERROR → GetPicture cfg c env = ⟨c, .VC_ERROR, none, false⟩) ∧
    (c.state = .EOS → GetPicture cfg c env = ⟨c, .VC_EOF, none, false⟩) ∧
    (c.state = .FLUSHED →
      GetPicture cfg c env = ⟨c, .VC_BUFFER, none, false⟩) ∧
    (c.state ≠ .ERROR → c.state ≠ .EOS → c.state ≠ .FLUSHED →
      (env.sinkCurrentPts = c.currentPts →
        GetPicture cfg c env = ⟨c, .VC_BUFFER, none, false⟩) ∧
      (env.sinkCurrentPts ≠ c.currentPts →
        GetPicture cfg c env =
          ⟨{ c with currentPts := env.sinkCurrentPts }, .VC_PICTURE,
            some env.sinkCurrentPts, true⟩)) ∧
    (∀ c', c'.isReady = false → GetPicture cfg c' env =
      ⟨c', .VC_NONE, none, false⟩) := by
  refine ⟨?_, ?_, ?_, ?_, ?_⟩
  · intro hst
    simp [GetPicture, hprefer, hready, hlink, hst]
  · intro hst
    simp [GetPicture, hprefer, hready, hlink, hst]
  · intro hst
    simp [GetPicture, hprefer, hready, hlink, hst]
  · intro h1 h2 h3
    constructor
    · intro hsame
      simp [GetPicture, hprefer, hprop, hready, hlink, h1, h2, h3, hsame]
    · intro hdiff
      simp [GetPicture, hprefer, hprop, hready, hlink, h1, h2, h3, hdiff]
  · intro c' hnotready
    simp [GetPicture, hnotready]

/-- Witness for C8 (amended): at a linked, ready state with the stream
out of its terminal/flushed states, a changed `current-pts` yields a
picture carrying the new timestamp. -/
theorem C8_amended_direct_outcomes_witness :
    GetPicture cfgDirect { readyDirectW.codec with state := .RUNNING }
        genvPts40000 =
      ⟨{ readyDirectW.codec with state := .RUNNING, currentPts := 40000 },
        .VC_PICTURE, some 40000, true⟩ :=
  ((C8_amended_direct_outcomes cfgDirect
      { readyDirectW.codec with state := .RUNNING } genvPts40000 rfl rfl
      (by decide) (by decide)).2.2.2.1 (by decide) (by decide)
      (by decide)).2 (by decide)

/-! ## Terminal ERROR state (C2) -/

/-- After a bus ERROR has been handled, the controller is in the
terminal-error configuration (state ERROR, pipeline torn down by the
error-triggered `Stop`, message thread stopped, readiness cleared). -/
theorem ErrInv_busError (cfg : Config) (w : World)
    (ht : w.codec.threadRunning = true) (hb : w.codec.data.bus = true) :
    ErrInv (stepW cfg w (.evBusMessage .error)).codec := by
  refine ⟨?_, ?_, ?_, ?_⟩ <;>
    simp [stepW, ht, hb, CBBusMessage, Stop, Dispose, ErrInv]

/-- Every event other than `Open` preserves the terminal-error
configuration. -/
theorem ErrInv_stepW (cfg : Config) (w : World) (e : Ev)
    (h : ErrInv w.codec) (hne : e.isOpen = false) :
    ErrInv (stepW cfg w e).codec := by
  obtain ⟨hs, hp, ht, hr⟩ := h
  cases e with
  | evOpen hh env => simp [Ev.isOpen] at hne
  | evAddData p ok =>
      refine ⟨?_, ?_, ?_, ?_⟩ <;>
        simp [stepW, AddData, ht, hs, hp, hr]
  | evGetPicture env =>
      refine ⟨?_, ?_, ?_, ?_⟩ <;> simp [stepW, GetPicture, hr, hs, hp, ht]
  | evReset =>
      refine ⟨?_, ?_, ?_, ?_⟩ <;> simp [stepW, Reset, hp, hs, ht, hr]
  | evStop =>
      refine ⟨?_, ?_, ?_, ?_⟩ <;> simp [stepW, Stop, Dispose, hr, ht, hs]
  | evBusMessage msg => simp [stepW, ht]; exact ⟨hs, hp, ht, hr⟩
  | evAutoPlug f d hw nm => simp [stepW, ht]; exact ⟨hs, hp, ht, hr⟩
  | evBusSync pm so => simp [stepW, hp]; exact ⟨hs, hp, ht, hr⟩
  | evFlushStop => simp [stepW, hp]; exact ⟨hs, hp, ht, hr⟩
  | evSeekData pos => simp [stepW, ht]; exact ⟨hs, hp, ht, hr⟩
  | evNewSample => simp [stepW, ht]; exact ⟨hs, hp, ht, hr⟩

/-- The terminal-error configuration survives any `Open`-free event
sequence. -/
theorem ErrInv_runW (cfg : Config) (w : World) (evs : List Ev)
    (h : ErrInv w.codec) (hne : ∀ e ∈ evs, e.isOpen = false) :
    ErrInv (runW cfg w evs).codec := by
  induction evs generalizing w with
  | nil => exact h
  | cons e rest ih =>
      exact ih (stepW cfg w e)
        (ErrInv_stepW cfg w e h (hne e (List.mem_cons_self e rest)))
        (fun e' he' => hne e' (List.mem_cons_of_mem e he'))

/-- C2 (amended): once a bus ERROR message has set the stream state to
ERROR, the state is terminal until the next `Open`: across any
`Open`-free sequence of subsequent operations and callbacks the state
remains ERROR, every `Reset` in that window is a no-op (the
error-triggered `Stop` already tore the pipeline down, so no flush
events are sent and ERROR is not cleared back to FLUSHED), and the next
`GetPicture` — in direct-to-surface mode as in pull mode — returns the
not-ready outcome `VC_NONE` (readiness was cleared by the error), not
the error outcome. -/
theorem C2_amended_error_terminal (cfg : Config) (w : World)
    (evs : List Ev) (ht : w.codec.threadRunning = true)
    (hb : w.codec.data.bus = true)
    (hne : ∀ e ∈ evs, e.isOpen = false) :
    (runW cfg (stepW cfg w (.evBusMessage .error)) evs).codec.state =
        .ERROR ∧
      Reset cfg (runW cfg (stepW cfg w (.evBusMessage .error)) evs).codec =
        ((runW cfg (stepW cfg w (.evBusMessage .error)) evs).codec,
          false) ∧
      ∀ genv, (GetPicture cfg
          (runW cfg (stepW cfg w (.evBusMessage .error)) evs).codec
          genv).ret = .VC_NONE := by
  obtain ⟨hs, hp, ht2, hr⟩ := ErrInv_runW cfg _ evs
    (ErrInv_busError cfg w ht hb) hne
  refine ⟨hs, ?_, ?_⟩
  · simp [Reset, hp]
  · intro genv
    simp [GetPicture, hr]

/-- C2 counterexample: in the reachable direct-to-surface session that
received a bus ERROR, the state is ERROR and stays ERROR across
`Reset`, but the next `GetPicture` returns `VC_NONE`, not the claimed
error outcome `VC_ERROR`. -/
theorem C2_counterexample :
    erroredDirectW.codec.state = .ERROR ∧
      (stepW cfgDirect erroredDirectW .evReset).codec.state = .ERROR ∧
      (GetPicture cfgDirect
          (stepW cfgDirect erroredDirectW .evReset).codec genvPts0).ret =
        .VC_NONE ∧
      VCReturn.VC_NONE ≠ VCReturn.VC_ERROR := by
  decide

/-- Witness for C2 (amended) on the concrete errored session, with a
`Reset` in the window. -/
theorem C2_amended_error_terminal_witness :
    (runW cfgDirect
        (stepW cfgDirect readyDirectW (.evBusMessage .error))
        [.evReset]).codec.state = .ERROR :=
  (C2_amended_error_terminal cfgDirect readyDirectW [.evReset]
    (by decide) (by decide)
    (by intro e he; rcases List.mem_singleton.mp he with rfl; rfl)).1

/-! ## Instance guard (C4) -/

/-- C4: the process-wide `m_InstanceGuard` admits at most one holder.
(1) An `Open` on either of two controller instances while the guard is
held changes nothing — neither instance's state nor the guard — and
returns false; (2) every failing path of `Open` taken with the guard
free (missing width/height, codec lookup failure, any pipeline
construction failure) releases the guard before returning; (3) a
successful `Open` is exactly the case that leaves the guard held; and
(4) `Stop` always clears the guard. -/
theorem C4_instance_guard (cfg : Config) :
    (∀ (w : World2) (h : Hints) (env : OpenEnv) (i : Who),
        w.guard = true →
          step2 cfg w i (.evOpen h env) = w ∧
            (Open cfg env h w.guard (w.codecOf i)).ret = false) ∧
      (∀ env h c, (Open cfg env h false c).ret = false →
        (Open cfg env h false c).guard = false) ∧
      (∀ env h c, (Open cfg env h false c).ret = true →
        (Open cfg env h false c).guard = true) ∧
      (∀ g c, (Stop g c).1 = false) := by
  refine ⟨?_, ?_, ?_, ?_⟩
  · rintro ⟨g, a, b⟩ h env i hg
    subst hg
    cases i <;> simp [step2, stepW, Open, World2.codecOf]
  · intro env h c hret
    simp only [Open] at hret ⊢
    split_ifs at hret ⊢ <;> first | rfl | contradiction
  · intro env h c hret
    simp only [Open] at hret ⊢
    split_ifs at hret ⊢ <;> rfl
  · intro g c
    simp [Stop]

/-- Witness for C4: with the guard held by the first instance, the
second instance's `Open` is a complete no-op returning false; when the
guard is free, the same `Open` succeeds and holds the guard; `Stop`
releases it. -/
theorem C4_instance_guard_witness :
    step2 cfgDirect ⟨true, initCodec, initCodec⟩ .b
        (.evOpen hintsHD envAllOk) = ⟨true, initCodec, initCodec⟩ ∧
      (Open cfgDirect envAllOk hintsHD false initCodec).ret = true ∧
      (Open cfgDirect envAllOk hintsHD false initCodec).guard = true ∧
      (Stop true initCodec).1 = false := by
  refine ⟨((C4_instance_guard cfgDirect).1 ⟨true, initCodec, initCodec⟩
      hintsHD envAllOk .b rfl).1, by decide,
    (C4_instance_guard cfgDirect).2.2.1 envAllOk hintsHD initCodec
      (by decide),
    (C4_instance_guard cfgDirect).2.2.2 true initCodec⟩

/-! ## Display geometry (C7) -/

/-- Clearing bit 1: `m &&& ~2 = 4 * (m / 4) + m % 2` (the effect of
`& -3` on a non-negative value). -/
theorem ldiff_two (m : ℕ) : Nat.ldiff m 2 = 4 * (m / 4) + m % 2 := by
  have h2 : ∀ k : ℕ, Nat.bitwise (fun a b => a && !b) k 0 = k := by
    intro k
    rw [Nat.bitwise]
    by_cases hk : k = 0 <;> simp [hk]
  have h1 : ∀ k : ℕ, Nat.bitwise (fun a b => a && !b) k 1 = 2 * (k / 2) := by
    intro k
    rw [Nat.bitwise]
    by_cases hk : k = 0
    · simp [hk]
    · simp [hk, h2]
      omega
  show Nat.bitwise (fun a b => a && !b) m 2 = _
  rw [Nat.bitwise]
  by_cases hm : m = 0
  · simp [hm]
  · simp [hm, h1]
    by_cases hodd : m % 2 = 1 <;> simp [hodd] <;> omega

/-- `x & -3` on a non-negative int leaves residue 0 or 1 modulo 4 — it
does NOT force a multiple of 4 (only bit 1 is cleared; bit 0 stays). -/
theorem land_neg3_mod4 {r : ℤ} (h : 0 ≤ r) :
    Int.land r (-3) % 4 = 0 ∨ Int.land r (-3) % 4 = 1 := by
  obtain ⟨m, rfl⟩ := Int.eq_ofNat_of_zero_le h
  have hland : Int.land (m : ℤ) (-3) = ((Nat.ldiff m 2 : ℕ) : ℤ) := rfl
  rw [hland, ldiff_two]
  rcases Nat.mod_two_eq_zero_or_one m with h2 | h2
  · left
    rw [h2]
    push_cast
    omega
  · right
    rw [h2]
    push_cast
    omega

/-- `lrint` of a non-negative value is non-negative. -/
theorem rint_nonneg {q : ℚ} (h : 0 ≤ q) : 0 ≤ rint q := by
  have hlo : (0 : ℤ) ≤ ⌊q⌋ := Int.floor_nonneg.mpr h
  simp only [rint]
  split_ifs <;> omega

/-- C7 (amended): for every picture geometry with positive dimensions
and a positive pixel-aspect denominator, the display width computed by
`SetPictureParams` never exceeds the actual width (the cap branch
rescales the height instead), and — because the mask is `& -3`, which
clears only bit 1 — the uncapped display width is congruent to 0 OR 1
modulo 4: an even rounded width becomes a multiple of 4, but an odd one
stays odd, so the mask does not force a multiple of 4. -/
theorem C7_amended_display_geometry (g : FrameGeom) (hw : 0 < g.width)
    (hh : 0 < g.height) (_hd : 0 < g.par_d) :
    (SetPictureParamsGeom g).1 ≤ g.width ∧
      ((SetPictureParamsGeom g).1 = g.width ∨
        (SetPictureParamsGeom g).1 % 4 = 0 ∨
        (SetPictureParamsGeom g).1 % 4 = 1) := by
  simp only [SetPictureParamsGeom]
  set a0 : ℚ := if g.par_n ≠ 0 then
      (g.par_n : ℚ) / (g.par_d : ℚ) * (g.width : ℚ) / (g.height : ℚ)
    else 0 with ha0
  set a : ℚ := if a0 ≤ 0 then (g.width : ℚ) / (g.height : ℚ) else a0
    with ha
  have hapos : 0 < a := by
    rw [ha]
    split_ifs with h0
    · exact div_pos (by exact_mod_cast hw) (by exact_mod_cast hh)
    · exact lt_of_not_le h0
  have hr : 0 ≤ rint ((g.height : ℚ) * a) :=
    rint_nonneg (le_of_lt (mul_pos (by exact_mod_cast hh) hapos))
  by_cases hcap : Int.land (rint ((g.height : ℚ) * a)) (-3) > g.width
  · simp only [if_pos hcap]
    exact ⟨le_refl _, Or.inl (by simp)⟩
  · simp only [if_neg hcap]
    exact ⟨not_lt.mp hcap, Or.inr (land_neg3_mod4 hr)⟩

/-- Witness for C7 (amended) at a concrete geometry. -/
theorem C7_amended_display_geometry_witness :
    (SetPictureParamsGeom ⟨16, 16, 13, 16⟩).1 ≤ 16 ∧
      ((SetPictureParamsGeom ⟨16, 16, 13, 16⟩).1 = 16 ∨
        (SetPictureParamsGeom ⟨16, 16, 13, 16⟩).1 % 4 = 0 ∨
        (SetPictureParamsGeom ⟨16, 16, 13, 16⟩).1 % 4 = 1) :=
  C7_amended_display_geometry ⟨16, 16, 13, 16⟩ (by decide) (by decide)
    (by decide)

/-- C7 counterexample: the mask `& -3` does not force a multiple of 4.
At `info.width = info.height = 16` with pixel aspect ratio `13/16`
(every double operation exact: `av_q2d` gives the dyadic `13/16`,
`aspect = 13/16 * 16/16 = 13/16`, `iHeight * aspect = 13.0`), `lrint`
yields 13, `13 & -3 = 13` (bit 1 of 13 is already clear), no cap
applies, and the display width is 13 — odd, not a multiple of 4. -/
theorem C7_counterexample :
    SetPictureParamsGeom ⟨16, 16, 13, 16⟩ = (13, 16) ∧
      ¬((13 : ℤ) % 4 = 0) := by
  constructor
  · have hland : Int.land (13 : ℤ) (-3) = 13 := by
      have h13 : ((13 : ℕ) : ℤ) = (13 : ℤ) := by norm_num
      have hl : Int.land ((13 : ℕ) : ℤ) (-3) =
          ((Nat.ldiff 13 2 : ℕ) : ℤ) := rfl
      rw [← h13, hl, ldiff_two]
    have hrint13 : rint (13 : ℚ) = 13 := by norm_num [rint]
    simp only [SetPictureParamsGeom]
    norm_num [hrint13, hland]
  · decide

/-! ## Auto-plug selection is always in use (C10) -/

theorem infix_append_left {x m : List Char} (l : List Char)
    (h : x <:+: m) : x <:+: l ++ m := by
  obtain ⟨s, t, hst⟩ := h
  exact ⟨l ++ s, t, by rw [← hst]; simp [List.append_assoc]⟩

theorem infix_append_right {x m : List Char} (r : List Char)
    (h : x <:+: m) : x <:+: m ++ r := by
  obtain ⟨s, t, hst⟩ := h
  exact ⟨s, t ++ r, by rw [← hst]; simp [List.append_assoc]⟩

/-- Every pipeline description `CreatePipeline` can build contains
`"decodebin"`: the decoder stage is hard-coded into the fixed middle
segment, for both sink choices and any caps/display strings. -/
theorem containsDecodebin_pipelineDesc (cfg : Config)
    (capsStr display : String) :
    containsDecodebin (pipelineDesc cfg capsStr display) = true := by
  unfold containsDecodebin pipelineDesc
  rw [decide_eq_true_iff]
  simp only [String.toList, String.data_append, List.append_assoc]
  have hbase : "decodebin".data <:+: " ! decodebin name=my_decoder".data :=
    by decide
  exact infix_append_left _ (infix_append_left _ (infix_append_left _
    (infix_append_left _ (infix_append_right _ hbase))))

/-- `StartMessageThread`-tail facts with auto-plugging enabled: the
non-auto-plug readiness shortcut is skipped, so readiness is preserved;
success starts the thread and implies the `appsrc` handle is present;
failure leaves the thread flag alone. -/
theorem CreatePipelineTail_spec (c : Codec) :
    ((CreatePipelineTail true c).2.isReady = c.isReady) ∧
      ((CreatePipelineTail true c).1 = true →
        (CreatePipelineTail true c).2.threadRunning = true ∧
          (CreatePipelineTail true c).2.data.app_source = true) ∧
      ((CreatePipelineTail true c).1 = false →
        (CreatePipelineTail true c).2.threadRunning = c.threadRunning) := by
  simp only [CreatePipelineTail]
  split_ifs <;> simp_all

/-- `CreatePipeline` facts: the pipeline description always contains
`decodebin`, so auto-plugging is always enabled and readiness is never
set here; success implies the message thread was started and the
`appsrc` handle exists; failure leaves the thread flag alone. -/
theorem CreatePipeline_spec (cfg : Config) (env : OpenEnv) (h : Hints)
    (c : Codec) :
    ((CreatePipeline cfg env h c).2.isReady = c.isReady) ∧
      ((CreatePipeline cfg env h c).1 = true →
        (CreatePipeline cfg env h c).2.threadRunning = true ∧
          (CreatePipeline cfg env h c).2.data.app_source = true) ∧
      ((CreatePipeline cfg env h c).1 = false →
        (CreatePipeline cfg env h c).2.threadRunning = c.threadRunning) := by
  simp only [CreatePipeline, containsDecodebin_pipelineDesc]
  split_ifs <;>
    first
      | (simp_all; done)
      | exact ⟨by rw [(CreatePipelineTail_spec _).1],
          fun hs => (CreatePipelineTail_spec _).2.1 hs,
          fun hf => by rw [(CreatePipelineTail_spec _).2.2 hf]⟩

/-- `Open` never modifies the readiness flag (the pipeline description
always contains `decodebin`, so the non-auto-plug readiness shortcut in
`CreatePipeline` is dead code). -/
theorem Open_isReady (cfg : Config) (env : OpenEnv) (h : Hints) (g : Bool)
    (c : Codec) : (Open cfg env h g c).codec.isReady = c.isReady := by
  cases g
  · simp only [Open, Bool.false_eq_true, if_false]
    split_ifs <;> first | rfl | exact (CreatePipeline_spec cfg env h _).1
  · simp [Open]

/-- A successful `Open` implies the guard was free at entry, starts the
message thread, has the `appsrc` handle, and leaves the guard held. -/
theorem Open_success (cfg : Config) (env : OpenEnv) (h : Hints) (g : Bool)
    (c : Codec) :
    (Open cfg env h g c).ret = true →
      g = false ∧ (Open cfg env h g c).codec.threadRunning = true ∧
        (Open cfg env h g c).codec.data.app_source = true ∧
        (Open cfg env h g c).guard = true := by
  cases g
  · simp only [Open, Bool.false_eq_true, if_false]
    split_ifs with h1 h2 h3 h4 <;> intro hs
    · simp at hs
    · exact ⟨trivial, ((CreatePipeline_spec cfg env h _).2.1 h3).1,
        ((CreatePipeline_spec cfg env h _).2.1 h3).2, rfl⟩
    · simp at hs
    · exact ⟨trivial, ((CreatePipeline_spec cfg env h _).2.1 h4).1,
        ((CreatePipeline_spec cfg env h _).2.1 h4).2, rfl⟩
    · simp at hs
  · intro hs
    simp [Open] at hs

/-- A failed `Open` leaves the message-thread flag as it was. -/
theorem Open_fail_thread (cfg : Config) (env : OpenEnv) (h : Hints)
    (g : Bool) (c : Codec) :
    (Open cfg env h g c).ret = false →
      (Open cfg env h g c).codec.threadRunning = c.threadRunning := by
  cases g
  · simp only [Open, Bool.false_eq_true, if_false]
    split_ifs with h1 h2 h3 h4 <;> intro hf
    · rfl
    · simp at hf
    · exact (CreatePipeline_spec cfg env h _).2.2 (by simpa using h3)
    · simp at hf
    · exact (CreatePipeline_spec cfg env h _).2.2 (by simpa using h4)
  · intro hf
    rfl

/-- With the guard free at entry, `Open` leaves it held exactly when it
succeeds. -/
theorem Open_guard (cfg : Config) (env : OpenEnv) (h : Hints) (c : Codec) :
    (Open cfg env h false c).guard = (Open cfg env h false c).ret := by
  simp only [Open, Bool.false_eq_true, if_false]
  split_ifs <;> rfl

/-- `Stop` releases the guard, stops the message thread, and — provided
readiness implies the `appsrc` handle (which every reachable state
satisfies) — clears readiness. -/
theorem Stop_facts (g : Bool) (c : Codec)
    (h : c.isReady = true → c.data.app_source = true) :
    (Stop g c).1 = false ∧ (Stop g c).2.threadRunning = false ∧
      (Stop g c).2.isReady = false := by
  refine ⟨rfl, ?_, ?_⟩
  · simp only [Stop, Dispose]
    split_ifs <;> simp_all
  · simp only [Stop, Dispose]
    split_ifs <;>
      first
        | rfl
        | (rename_i hA _
           cases hir : c.isReady
           · rfl
           · exact absurd (And.intro hir (h hir)) hA)

/-- `AddData` either leaves the controller and the guard untouched or
performs exactly a `Stop` (push failure). -/
theorem AddData_cases (cfg : Config) (g : Bool) (c : Codec)
    (p : DemuxPacket) (ok : Bool) :
    ((AddData cfg g c p ok).codec = c ∧ (AddData cfg g c p ok).guard = g) ∨
      ((AddData cfg g c p ok).codec = (Stop g c).2 ∧
        (AddData cfg g c p ok).guard = (Stop g c).1) := by
  simp only [AddData]
  split_ifs <;> simp

/-- `GetPicture` never touches readiness, the message-thread flag or
the `appsrc` handle. -/
theorem GetPicture_preserves (cfg : Config) (c : Codec) (env : GetPicEnv) :
    (GetPicture cfg c env).codec.isReady = c.isReady ∧
      (GetPicture cfg c env).codec.threadRunning = c.threadRunning ∧
      (GetPicture cfg c env).codec.data.app_source = c.data.app_source := by
  refine ⟨?_, ?_, ?_⟩
  · simp only [GetPicture, apply_ite GetPicResult.codec,
      apply_ite Codec.isReady, ite_self]
  · simp only [GetPicture, apply_ite GetPicResult.codec,
      apply_ite Codec.threadRunning, ite_self]
  · simp only [GetPicture, apply_ite GetPicResult.codec,
      apply_ite Codec.data, apply_ite PipelineData.app_source, ite_self]

/-- `Reset` never touches readiness, the message-thread flag or the
`appsrc` handle. -/
theorem Reset_preserves (cfg : Config) (c : Codec) :
    (Reset cfg c).1.isReady = c.isReady ∧
      (Reset cfg c).1.threadRunning = c.threadRunning ∧
      (Reset cfg c).1.data.app_source = c.data.app_source := by
  refine ⟨?_, ?_, ?_⟩
  · simp only [Reset, apply_ite Prod.fst, apply_ite Codec.isReady, ite_self]
  · simp only [Reset, apply_ite Prod.fst, apply_ite Codec.threadRunning,
      ite_self]
  · simp only [Reset, apply_ite Prod.fst, apply_ite Codec.data,
      apply_ite PipelineData.app_source, ite_self]

/-- The liveness invariant `WInv` is preserved by every event. -/
theorem WInv_stepW (cfg : Config) (w : World) (e : Ev) (h : WInv w) :
    WInv (stepW cfg w e) := by
  obtain ⟨h1, h2, h3⟩ := h
  cases e with
  | evOpen hh env =>
      refine ⟨?_, ?_, ?_⟩
      · intro hready
        have hro := Open_isReady cfg env hh w.guard w.codec
        have hpre : w.codec.isReady = true := hro.symm.trans hready
        have hpret := h1 hpre
        have hg := h3 hpret
        show (Open cfg env hh w.guard w.codec).codec.threadRunning = true
        rw [hg]
        simpa [Open] using hpret
      · intro htr
        show (Open cfg env hh w.guard w.codec).codec.data.app_source = true
        have htr' : (Open cfg env hh w.guard w.codec).codec.threadRunning
            = true := htr
        cases hret : (Open cfg env hh w.guard w.codec).ret
        · by_cases hg : w.guard = true
          · have hcodec : (Open cfg env hh w.guard w.codec).codec = w.codec := by
              rw [hg]
              rfl
            rw [hcodec] at htr' ⊢
            exact h2 htr'
          · have hg' : w.guard = false := by simpa using hg
            have hft := Open_fail_thread cfg env hh w.guard w.codec hret
            rw [hft] at htr'
            exact absurd (h3 htr') (by simp [hg'])
        · exact (Open_success cfg env hh w.guard w.codec hret).2.2.1
      · intro htr
        show (Open cfg env hh w.guard w.codec).guard = true
        cases hret : (Open cfg env hh w.guard w.codec).ret
        · by_cases hg : w.guard = true
          · rw [hg]
            rfl
          · have hg' : w.guard = false := by simpa using hg
            have hft := Open_fail_thread cfg env hh w.guard w.codec hret
            have htr' : (Open cfg env hh w.guard w.codec).codec.threadRunning
                = true := htr
            rw [hft] at htr'
            exact absurd (h3 htr') (by simp [hg'])
        · exact (Open_success cfg env hh w.guard w.codec hret).2.2.2
  | evAddData p ok =>
      rcases AddData_cases cfg w.guard w.codec p ok with ⟨hc, hg⟩ | ⟨hc, hg⟩
      · refine ⟨?_, ?_, ?_⟩
        · intro hr
          have hr' : (AddData cfg w.guard w.codec p ok).codec.isReady
              = true := hr
          show (AddData cfg w.guard w.codec p ok).codec.threadRunning = true
          rw [hc] at hr' ⊢
          exact h1 hr'
        · intro htr
          have htr' : (AddData cfg w.guard w.codec p ok).codec.threadRunning
              = true := htr
          show (AddData cfg w.guard w.codec p ok).codec.data.app_source = true
          rw [hc] at htr' ⊢
          exact h2 htr'
        · intro htr
          have htr' : (AddData cfg w.guard w.codec p ok).codec.threadRunning
              = true := htr
          show (AddData cfg w.guard w.codec p ok).guard = true
          rw [hg]
          rw [hc] at htr'
          exact h3 htr'
      · have hsf := Stop_facts w.guard w.codec (fun hir => h2 (h1 hir))
        refine ⟨?_, ?_, ?_⟩
        · intro hr
          have hr' : (AddData cfg w.guard w.codec p ok).codec.isReady
              = true := hr
          rw [hc, hsf.2.2] at hr'
          cases hr'
        · intro htr
          have htr' : (AddData cfg w.guard w.codec p ok).codec.threadRunning
              = true := htr
          rw [hc, hsf.2.1] at htr'
          cases htr'
        · intro htr
          have htr' : (AddData cfg w.guard w.codec p ok).codec.threadRunning
              = true := htr
          rw [hc, hsf.2.1] at htr'
          cases htr'
  | evGetPicture env =>
      obtain ⟨q1, q2, q3⟩ := GetPicture_preserves cfg w.codec env
      exact ⟨fun hr => q2.trans (h1 (q1.symm.trans hr)),
        fun htr => q3.trans (h2 (q2.symm.trans htr)),
        fun htr => h3 (q2.symm.trans htr)⟩
  | evReset =>
      obtain ⟨q1, q2, q3⟩ := Reset_preserves cfg w.codec
      exact ⟨fun hr => q2.trans (h1 (q1.symm.trans hr)),
        fun htr => q3.trans (h2 (q2.symm.trans htr)),
        fun htr => h3 (q2.symm.trans htr)⟩
  | evStop =>
      have hsf := Stop_facts w.guard w.codec (fun hir => h2 (h1 hir))
      exact ⟨fun hr => absurd (hsf.2.2.symm.trans hr) (by simp),
        fun htr => absurd (hsf.2.1.symm.trans htr) (by simp),
        fun htr => absurd (hsf.2.1.symm.trans htr) (by simp)⟩
  | evBusMessage msg =>
      by_cases hgo : w.codec.threadRunning = true ∧ w.codec.data.bus = true
      · cases msg with
        | error =>
            have hsf := Stop_facts w.guard
                { w.codec with isReady := false, state := .ERROR }
                (fun hir => by simp at hir)
            have hstep : stepW cfg w (.evBusMessage .error) =
                ⟨(Stop w.guard
                    { w.codec with isReady := false, state := .ERROR }).1,
                  (Stop w.guard
                    { w.codec with isReady := false, state := .ERROR }).2⟩ := by
              simp [stepW, hgo, CBBusMessage]
            rw [hstep]
            exact ⟨fun hr => absurd (hsf.2.2.symm.trans hr) (by simp),
              fun htr => absurd (hsf.2.1.symm.trans htr) (by simp),
              fun htr => absurd (hsf.2.1.symm.trans htr) (by simp)⟩
        | eos =>
            have hstep : stepW cfg w (.evBusMessage .eos) =
                ⟨w.guard, { w.codec with state := .EOS, isReady := false }⟩ := by
              simp [stepW, hgo, CBBusMessage]
            rw [hstep]
            exact ⟨fun hr => by simp at hr, fun htr => h2 htr,
              fun htr => h3 htr⟩
        | stateChanged src playing =>
            cases src with
            | true =>
                have hstep : stepW cfg w
                    (.evBusMessage (.stateChanged true playing)) =
                    ⟨w.guard, { w.codec with isPlaying := playing }⟩ := by
                  simp [stepW, hgo, CBBusMessage]
                rw [hstep]
                exact ⟨fun hr => h1 hr, fun htr => h2 htr, fun htr => h3 htr⟩
            | false =>
                have hstep : stepW cfg w
                    (.evBusMessage (.stateChanged false playing)) =
                    ⟨w.guard, w.codec⟩ := by
                  simp [stepW, hgo, CBBusMessage]
                rw [hstep]
                exact ⟨h1, h2, h3⟩
        | warning =>
            have hstep : stepW cfg w (.evBusMessage .warning) =
                ⟨w.guard, w.codec⟩ := by
              simp [stepW, hgo, CBBusMessage]
            rw [hstep]
            exact ⟨h1, h2, h3⟩
        | qos =>
            have hstep : stepW cfg w (.evBusMessage .qos) =
                ⟨w.guard, w.codec⟩ := by
              simp [stepW, hgo, CBBusMessage]
            rw [hstep]
            exact ⟨h1, h2, h3⟩
        | other =>
            have hstep : stepW cfg w (.evBusMessage .other) =
                ⟨w.guard, w.codec⟩ := by
              simp [stepW, hgo, CBBusMessage]
            rw [hstep]
            exact ⟨h1, h2, h3⟩
      · have hstep : stepW cfg w (.evBusMessage msg) = w := by
          simp only [stepW, if_neg hgo]
        rw [hstep]
        exact ⟨h1, h2, h3⟩
  | evAutoPlug f d hw nm =>
      by_cases hgo : w.codec.threadRunning = true ∧ w.codec.data.decoder
          = true ∧ w.codec.autoPlugConnected = true
      · have hstep : stepW cfg w (.evAutoPlug f d hw nm) =
            ⟨w.guard, CBAutoPlugSelect w.codec f d hw nm⟩ := by
          simp only [stepW, if_pos hgo]
        rw [hstep]
        cases f with
        | false =>
            simp only [CBAutoPlugSelect, Bool.false_eq_true,
              not_false_eq_true, if_pos trivial]
            exact ⟨h1, h2, h3⟩
        | true =>
            cases d with
            | false =>
                simp only [CBAutoPlugSelect]
                simp only [Bool.not_eq_true, if_neg, reduceIte]
                exact ⟨h1, h2, h3⟩
            | true =>
                simp only [CBAutoPlugSelect]
                simp only [Bool.not_eq_true, if_neg, reduceIte]
                exact ⟨fun _ => hgo.1, fun htr => h2 htr, fun htr => h3 htr⟩
      · have hstep : stepW cfg w (.evAutoPlug f d hw nm) = w := by
          simp only [stepW, if_neg hgo]
        rw [hstep]
        exact ⟨h1, h2, h3⟩
  | evBusSync pm so =>
      by_cases hgo : w.codec.data.pipeline = true ∧
          w.codec.syncHandlerInstalled = true
      · have hstep : stepW cfg w (.evBusSync pm so) =
            ⟨w.guard, BusSyncHandler w.codec pm so⟩ := by
          simp only [stepW, if_pos hgo]
        rw [hstep]
        by_cases hcond : pm = true ∧ so = true
        · simp only [BusSyncHandler, if_pos hcond]
          exact ⟨fun hr => h1 hr, fun htr => h2 htr, fun htr => h3 htr⟩
        · simp only [BusSyncHandler, if_neg hcond]
          exact ⟨h1, h2, h3⟩
      · have hstep : stepW cfg w (.evBusSync pm so) = w := by
          simp only [stepW, if_neg hgo]
        rw [hstep]
        exact ⟨h1, h2, h3⟩
  | evFlushStop =>
      by_cases hgo : w.codec.data.pipeline = true ∧
          w.codec.flushProbeInstalled = true
      · have hstep : stepW cfg w .evFlushStop =
            ⟨w.guard, EventProbe w.codec true⟩ := by
          simp only [stepW, if_pos hgo]
        rw [hstep]
        simp only [EventProbe, if_pos trivial]
        exact ⟨fun hr => h1 hr, fun htr => h2 htr, fun htr => h3 htr⟩
      · have hstep : stepW cfg w .evFlushStop = w := by
          simp only [stepW, if_neg hgo]
        rw [hstep]
        exact ⟨h1, h2, h3⟩
  | evSeekData pos =>
      by_cases hgo : w.codec.threadRunning = true ∧
          w.codec.data.app_source = true
      · have hstep : stepW cfg w (.evSeekData pos) =
            ⟨w.guard, CBSeekData w.codec pos⟩ := by
          simp only [stepW, if_pos hgo]
        rw [hstep]
        exact ⟨fun hr => h1 hr, fun htr => h2 htr, fun htr => h3 htr⟩
      · have hstep : stepW cfg w (.evSeekData pos) = w := by
          simp only [stepW, if_neg hgo]
        rw [hstep]
        exact ⟨h1, h2, h3⟩
  | evNewSample =>
      by_cases hgo : w.codec.threadRunning = true ∧
          w.codec.data.app_sink = true
      · have hstep : stepW cfg w .evNewSample =
            ⟨w.guard, CBNewSample w.codec⟩ := by
          simp only [stepW, if_pos hgo]
        rw [hstep]
        exact ⟨fun hr => h1 hr, fun htr => h2 htr, fun htr => h3 htr⟩
      · have hstep : stepW cfg w .evNewSample = w := by
          simp only [stepW, if_neg hgo]
        rw [hstep]
        exact ⟨h1, h2, h3⟩

/-- `WInv` holds in the initial world: nothing is ready, no thread runs. -/
theorem WInv_init : WInv initWorld :=
  ⟨fun h => absurd h (by decide), fun h => absurd h (by decide),
    fun h => absurd h (by decide)⟩

/-- `WInv` is preserved along any event trace. -/
theorem WInv_runW (cfg : Config) (w : World) (evs : List Ev) (h : WInv w) :
    WInv (runW cfg w evs) := by
  induction evs generalizing w with
  | nil => exact h
  | cons e rest ih => exact ih _ (WInv_stepW cfg w e h)

/-- `Stop` never raises readiness. -/
theorem Stop_isReady_false (g : Bool) (c : Codec)
    (h : c.isReady = false) : (Stop g c).2.isReady = false := by
  simp only [Stop, Dispose]
  split_ifs <;> simp_all

/-- `CBBusMessage` never raises readiness. -/
theorem CBBusMessage_isReady_false (g : Bool) (c : Codec)
    (msg : GstMessage) (h : c.isReady = false) :
    (CBBusMessage g c msg).2.isReady = false := by
  cases msg with
  | error => exact Stop_isReady_false g _ rfl
  | eos => rfl
  | stateChanged s p => cases s <;> simp [CBBusMessage, h]
  | warning => exact h
  | qos => exact h
  | other => exact h

/-- `BusSyncHandler` never touches readiness. -/
theorem BusSyncHandler_isReady (c : Codec) (pm so : Bool) :
    (BusSyncHandler c pm so).isReady = c.isReady := by
  simp only [BusSyncHandler, apply_ite Codec.isReady, ite_self]

/-- The sink-pad `EventProbe` never touches readiness. -/
theorem EventProbe_isReady (c : Codec) (b : Bool) :
    (EventProbe c b).isReady = c.isReady := by
  simp only [EventProbe, apply_ite Codec.isReady, ite_self]

/-- Readiness is raised only by the auto-plug-select callback being
offered a decoder element factory; no other event can take the flag
from `false` to `true`. -/
theorem stepW_ready_raise (cfg : Config) (w : World) (e : Ev)
    (h0 : w.codec.isReady = false)
    (h1 : (stepW cfg w e).codec.isReady = true) :
    ∃ hw nm, e = Ev.evAutoPlug true true hw nm := by
  cases e with
  | evOpen hh env =>
      have h1' : (Open cfg env hh w.guard w.codec).codec.isReady = true := h1
      rw [Open_isReady] at h1'
      exact absurd (h0.symm.trans h1') (by decide)
  | evAddData p ok =>
      have h1' : (AddData cfg w.guard w.codec p ok).codec.isReady = true := h1
      rcases AddData_cases cfg w.guard w.codec p ok with ⟨hc, _⟩ | ⟨hc, _⟩
      · rw [hc] at h1'
        exact absurd (h0.symm.trans h1') (by decide)
      · rw [hc, Stop_isReady_false w.guard w.codec h0] at h1'
        exact absurd h1' (by decide)
  | evGetPicture env =>
      have h1' : (GetPicture cfg w.codec env).codec.isReady = true := h1
      rw [(GetPicture_preserves cfg w.codec env).1] at h1'
      exact absurd (h0.symm.trans h1') (by decide)
  | evReset =>
      have h1' : (Reset cfg w.codec).1.isReady = true := h1
      rw [(Reset_preserves cfg w.codec).1] at h1'
      exact absurd (h0.symm.trans h1') (by decide)
  | evStop =>
      have h1' : (Stop w.guard w.codec).2.isReady = true := h1
      rw [Stop_isReady_false w.guard w.codec h0] at h1'
      exact absurd h1' (by decide)
  | evBusMessage msg =>
      by_cases hgo : w.codec.threadRunning = true ∧ w.codec.data.bus = true
      · have hstep : stepW cfg w (.evBusMessage msg) =
            ⟨(CBBusMessage w.guard w.codec msg).1,
              (CBBusMessage w.guard w.codec msg).2⟩ := by
          simp only [stepW, if_pos hgo]
        rw [hstep] at h1
        have h1' : (CBBusMessage w.guard w.codec msg).2.isReady = true := h1
        rw [CBBusMessage_isReady_false w.guard w.codec msg h0] at h1'
        exact absurd h1' (by decide)
      · have hstep : stepW cfg w (.evBusMessage msg) = w := by
          simp only [stepW, if_neg hgo]
        rw [hstep] at h1
        exact absurd (h0.symm.trans h1) (by decide)
  | evAutoPlug f d hw nm =>
      by_cases hgo : w.codec.threadRunning = true ∧ w.codec.data.decoder
          = true ∧ w.codec.autoPlugConnected = true
      · have hstep : stepW cfg w (.evAutoPlug f d hw nm) =
            ⟨w.guard, CBAutoPlugSelect w.codec f d hw nm⟩ := by
          simp only [stepW, if_pos hgo]
        rw [hstep] at h1
        cases f with
        | false =>
            simp [CBAutoPlugSelect] at h1
            exact absurd (h0.symm.trans h1) (by decide)
        | true =>
            cases d with
            | false =>
                simp [CBAutoPlugSelect] at h1
                exact absurd (h0.symm.trans h1) (by decide)
            | true => exact ⟨hw, nm, rfl⟩
      · have hstep : stepW cfg w (.evAutoPlug f d hw nm) = w := by
          simp only [stepW, if_neg hgo]
        rw [hstep] at h1
        exact absurd (h0.symm.trans h1) (by decide)
  | evBusSync pm so =>
      by_cases hgo : w.codec.data.pipeline = true ∧
          w.codec.syncHandlerInstalled = true
      · have hstep : stepW cfg w (.evBusSync pm so) =
            ⟨w.guard, BusSyncHandler w.codec pm so⟩ := by
          simp only [stepW, if_pos hgo]
        rw [hstep] at h1
        have h1' : (BusSyncHandler w.codec pm so).isReady = true := h1
        rw [BusSyncHandler_isReady] at h1'
        exact absurd (h0.symm.trans h1') (by decide)
      · have hstep : stepW cfg w (.evBusSync pm so) = w := by
          simp only [stepW, if_neg hgo]
        rw [hstep] at h1
        exact absurd (h0.symm.trans h1) (by decide)
  | evFlushStop =>
      by_cases hgo : w.codec.data.pipeline = true ∧
          w.codec.flushProbeInstalled = true
      · have hstep : stepW cfg w .evFlushStop =
            ⟨w.guard, EventProbe w.codec true⟩ := by
          simp only [stepW, if_pos hgo]
        rw [hstep] at h1
        have h1' : (EventProbe w.codec true).isReady = true := h1
        rw [EventProbe_isReady] at h1'
        exact absurd (h0.symm.trans h1') (by decide)
      · have hstep : stepW cfg w .evFlushStop = w := by
          simp only [stepW, if_neg hgo]
        rw [hstep] at h1
        exact absurd (h0.symm.trans h1) (by decide)
  | evSeekData pos =>
      by_cases hgo : w.codec.threadRunning = true ∧
          w.codec.data.app_source = true
      · have hstep : stepW cfg w (.evSeekData pos) =
            ⟨w.guard, CBSeekData w.codec pos⟩ := by
          simp only [stepW, if_pos hgo]
        rw [hstep] at h1
        have h1' : (CBSeekData w.codec pos).isReady = true := h1
        exact absurd (h0.symm.trans h1') (by decide)
      · have hstep : stepW cfg w (.evSeekData pos) = w := by
          simp only [stepW, if_neg hgo]
        rw [hstep] at h1
        exact absurd (h0.symm.trans h1) (by decide)
  | evNewSample =>
      by_cases hgo : w.codec.threadRunning = true ∧
          w.codec.data.app_sink = true
      · have hstep : stepW cfg w .evNewSample =
            ⟨w.guard, CBNewSample w.codec⟩ := by
          simp only [stepW, if_pos hgo]
        rw [hstep] at h1
        have h1' : (CBNewSample w.codec).isReady = true := h1
        exact absurd (h0.symm.trans h1') (by decide)
      · have hstep : stepW cfg w .evNewSample = w := by
          simp only [stepW, if_neg hgo]
        rw [hstep] at h1
        exact absurd (h0.symm.trans h1) (by decide)

/-- C10: every pipeline description `CreatePipeline` builds contains the
auto-selecting decoder stage `"decodebin"`; consequently after every
successful `Open` (from any reachable world) the readiness flag is
still `false`, and the only event that ever takes readiness from
`false` to `true` is the auto-plug-select callback being offered a
decoder element factory — the non-auto-plug readiness shortcut in
`CreatePipeline` is dead code. -/
theorem C10_decodebin_always :
    (∀ cfg capsStr display,
      containsDecodebin (pipelineDesc cfg capsStr display) = true) ∧
    (∀ cfg evs h env,
      (Open cfg env h (runW cfg initWorld evs).guard
          (runW cfg initWorld evs).codec).ret = true →
        (Open cfg env h (runW cfg initWorld evs).guard
          (runW cfg initWorld evs).codec).codec.isReady = false) ∧
    (∀ cfg w e, w.codec.isReady = false →
      (stepW cfg w e).codec.isReady = true →
        ∃ hw nm, e = Ev.evAutoPlug true true hw nm) := by
  refine ⟨containsDecodebin_pipelineDesc, ?_, stepW_ready_raise⟩
  intro cfg evs h env hret
  obtain ⟨h1, _, h3⟩ := WInv_runW cfg initWorld evs WInv_init
  have hg := (Open_success cfg env h _ _ hret).1
  rw [Open_isReady]
  cases hir : (runW cfg initWorld evs).codec.isReady
  · rfl
  · exact absurd (h3 (h1 hir)) (by simp [hg])

/-- Witness for C10 at concrete inputs: the pull-mode configuration, an
all-successful `Open` from the empty trace, and the auto-plug event on
the freshly opened world. -/
theorem C10_witness :
    containsDecodebin (pipelineDesc cfgPull "video/x-h264" "") = true ∧
    ((Open cfgPull envAllOk hintsHD (runW cfgPull initWorld []).guard
        (runW cfgPull initWorld []).codec).ret = true ∧
      (Open cfgPull envAllOk hintsHD (runW cfgPull initWorld []).guard
        (runW cfgPull initWorld []).codec).codec.isReady = false) ∧
    (openedPullW.codec.isReady = false ∧
      (stepW cfgPull openedPullW
          (Ev.evAutoPlug true true true "dec")).codec.isReady = true ∧
      ∃ hw nm, Ev.evAutoPlug true true true "dec"
          = Ev.evAutoPlug true true hw nm) := by
  have hret : (Open cfgPull envAllOk hintsHD
      (runW cfgPull initWorld []).guard
      (runW cfgPull initWorld []).codec).ret = true := by
    with_unfolding_all decide
  have h0 : openedPullW.codec.isReady = false := by
    with_unfolding_all decide
  have h1 : (stepW cfgPull openedPullW
      (Ev.evAutoPlug true true true "dec")).codec.isReady = true := by
    with_unfolding_all decide
  exact ⟨C10_decodebin_always.1 cfgPull "video/x-h264" "",
    ⟨hret, C10_decodebin_always.2.1 cfgPull [] hintsHD envAllOk hret⟩,
    ⟨h0, h1, C10_decodebin_always.2.2 cfgPull openedPullW _ h0 h1⟩⟩
